import Mathlib

/-!
Verification of the citadel-monitor backend core (src/backend/main.py)
against its natural-language specification.

The Python source is shallowly embedded: each data-aggregation function of
`main.py` becomes a pure Lean function.  Machine floats are modelled as exact
rationals (`Rat`), Python `round(x, n)` as round-half-to-even on rationals,
Python dicts either as records (when every key is assigned on every path) or
as association lists with prepend-shadowing (when keys are inserted
conditionally), and fallible I/O as an explicit `Fetch` outcome parameter.
`raise`-freedom of the Python code is reflected by the totality of the Lean
functions.  Global mutable state (the interface-rate tracker) is passed
explicitly as a `RateState` value.
-/

/-- Python's banker's rounding of a rational to the nearest integer
(round half to even), as used by the built-in `round`. -/
def roundHalfEven (q : Rat) : Int :=
  let f := q.floor
  let r := q - f
  if r < 1/2 then f
  else if 1/2 < r then f + 1
  else if f % 2 = 0 then f else f + 1

/-- Model of Python `round(x, n)` on a rational. -/
def pyRound (x : Rat) (n : Nat) : Rat :=
  (roundHalfEven (x * 10 ^ n) : Rat) / 10 ^ n

/-- Whether `needle` occurs as a contiguous run inside `hay`
(model of Python's `kw in s` on strings). -/
def kwSearch (needle : List Char) : List Char → Bool
  | [] => needle.isEmpty
  | c :: t => needle.isPrefixOf (c :: t) || kwSearch needle t

/-- Python `kw in s` for strings. -/
def strHas (s kw : String) : Bool := kwSearch kw.data s.data

/-- `format_time_ago` (main.py:160-173): coarse relative age of a
timedelta given in whole seconds. -/
def format_time_ago (total_seconds : Int) : String :=
  if total_seconds < 0 then "0s"
  else if total_seconds < 60 then toString total_seconds ++ "s"
  else if total_seconds < 3600 then toString (total_seconds / 60) ++ "m"
  else if total_seconds < 86400 then toString (total_seconds / 3600) ++ "h"
  else toString (total_seconds / 86400) ++ "d"

/-- `format_uptime` (main.py:176-190). -/
def format_uptime (seconds : Int) : String :=
  if seconds ≤ 0 then "Unknown"
  else
    let days := seconds / 86400
    let hours := (seconds % 86400) / 3600
    let minutes := (seconds % 3600) / 60
    if days > 0 then toString days ++ "d " ++ toString hours ++ "h"
    else if hours > 0 then toString hours ++ "h " ++ toString minutes ++ "m"
    else toString minutes ++ "m"

/-- `categorize_alert` (main.py:144-157): first matching keyword group wins. -/
def categorize_alert (alertname : String) : String :=
  let l := alertname.toLower
  if ["cpu", "memory", "ram", "disk", "filesystem", "storage"].any (fun kw => strHas l kw) then
    "resources"
  else if ["pod", "container", "deployment", "replica", "kube", "kubernetes"].any (fun kw => strHas l kw) then
    "kubernetes"
  else if ["node", "host", "server", "instance", "machine"].any (fun kw => strHas l kw) then
    "infrastructure"
  else if ["network", "connection", "dns", "http", "tcp", "latency"].any (fun kw => strHas l kw) then
    "network"
  else "general"

/-- `node_host.split(":")[0] if ":" in node_host else node_host`
(main.py:243). -/
def hostIp (h : String) : String := (h.splitOn ":").headD h

/-- Outcome of one underlying I/O call: either a decoded payload or any
failure (transport error, timeout, malformed/non-200 response). -/
inductive Fetch (α : Type) where
  | ok : α → Fetch α
  | err : Fetch α
deriving DecidableEq

-- ===========================================================================
-- Data model (section 3 of the spec, shapes taken from main.py)
-- ===========================================================================

/-- Feature-enablement flags (config.prometheus/kubernetes/firewall.enabled). -/
structure Features where
  prometheus : Bool
  kubernetes : Bool
  firewall : Bool
deriving DecidableEq

/-- One entry of `config.services` (config.py ServiceConfig). -/
structure ServiceConfig where
  name : String
  url : String
  host : Option String
  health_path : Option String
deriving DecidableEq

/-- One entry of `config.prometheus.nodes` (config.py NodeConfig). -/
structure NodeConfig where
  name : String
  host : String
deriving DecidableEq

/-- What the HTTP GET of one service check did: a response with a status
code and an elapsed time in milliseconds, a timeout, or a transport error. -/
inductive CheckOutcome where
  | response : Nat → Rat → CheckOutcome
  | timeout : CheckOutcome
  | failure : CheckOutcome
deriving DecidableEq

/-- Service entry built by `check_service` (main.py:359-395). -/
structure ServiceEntry where
  name : String
  url : String
  status : String
  responseTime : Option Rat
deriving DecidableEq

/-- Result of `get_service_status` (main.py:341-413). -/
structure ServiceResult where
  services : List ServiceEntry
  healthScore : Rat
  upCount : Nat
  totalCount : Nat
deriving DecidableEq

/-- Outcomes of the three per-node Prometheus queries; `none` models a
failed query or an empty result set (main.py:251-277). -/
structure NodeQueries where
  cpu : Option Rat
  ram : Option Rat
  disk : Option Rat
deriving DecidableEq

/-- Node entry built by `get_node_metrics` (main.py:290-298). -/
structure NodeEntry where
  name : String
  ip : String
  status : String
  cpu : Option Rat
  ram : Option Rat
  disk : Option Rat
  health : String
deriving DecidableEq

/-- A Kubernetes node as seen through `list_node`: its name and its
`(type, status)` condition pairs. -/
structure K8sNodeInfo where
  name : String
  conditions : List (String × String)
deriving DecidableEq

/-- One raw `ALERTS{alertstate="firing"}` result row; `none` models a
label absent from the metric (main.py:317-322). -/
structure RawAlert where
  alertname : Option String
  inst : Option String
  severity : Option String
  description : Option String
  summary : Option String
deriving DecidableEq

/-- Alert entry built by `get_active_alerts` (main.py:326-334).
`inst` stands for the Python key `instance`. -/
structure Alert where
  id : String
  alertname : String
  severity : String
  inst : String
  description : String
  category : String
  time : String
deriving DecidableEq

/-- Pod tallies of the cluster overview (main.py:425). -/
structure PodCounts where
  running : Nat
  pending : Nat
  failed : Nat
  total : Nat
deriving DecidableEq

/-- Result of `get_cluster_overview` (main.py:416-468). -/
structure ClusterOverview where
  pods : PodCounts
  namespaces : Nat
  nodes : Nat
  nodesReady : Nat
deriving DecidableEq

/-- A Kubernetes event as seen through `list_event_for_all_namespaces`;
timestamps are whole seconds, `none` models a missing field.  `ns` stands
for the Python key `namespace`. -/
structure K8sEvent where
  last_timestamp : Option Int
  event_time : Option Int
  message : String
  type : Option String
  source_component : String
  ns : String
  reason : String
deriving DecidableEq

/-- Activity entry built by `get_recent_activity` (main.py:513-520). -/
structure ActivityItem where
  time : String
  message : String
  type : String
  source : String
  ns : String
  reason : String
deriving DecidableEq

/-- Firewall identity/health block of the network document
(main.py:540-549). -/
structure FirewallBlock where
  hostname : String
  model : String
  firmware : String
  uptime : Int
  uptimeFormatted : String
  cpu : Rat
  memory : Rat
  status : String
deriving DecidableEq

/-- One interface entry of the network document (main.py:688-697). -/
structure InterfaceEntry where
  name : String
  ip : String
  status : String
  speed : Nat
  rxBytes : Int
  txBytes : Int
  rxRate : Rat
  txRate : Rat
deriving DecidableEq

/-- The network document built by `get_network_status` (main.py:539-554). -/
structure NetworkStatus where
  firewall : FirewallBlock
  interfaces : List InterfaceEntry
  dhcpLeases : Nat
  deviceCount : Nat
  available : Bool
deriving DecidableEq

/-- Raw interface data decoded from the FortiGate interface endpoint
(main.py:656-667). -/
structure IfaceData where
  type : String
  ip : String
  ipv4 : List String
  rx_bytes : Int
  tx_bytes : Int
  link : Bool
  speed : Nat
deriving DecidableEq

/-- Decoded `system/status` payload (main.py:588-596). -/
structure SysStatus where
  hostname : String
  model_name : String
  model_number : String
  version : String
deriving DecidableEq

/-- Decoded `resource/usage` payload: the `current` values of the `cpu`
and `mem` result lists (main.py:610-618). -/
structure ResUsage where
  cpu : List Rat
  mem : List Rat
deriving DecidableEq

/-- One DHCP lease row; empty string models a missing/empty field
(main.py:713-715). -/
structure DhcpEntry where
  ip : String
  mac : String
deriving DecidableEq

/-- Outcomes of the FortiGate session and its six endpoint calls
(main.py:576-741).  `connect` failing models an exception outside the
per-endpoint try blocks (e.g. session setup). -/
structure FortiOutcomes where
  connect : Fetch Unit
  status : Fetch SysStatus
  resource : Fetch ResUsage
  perf : Fetch Int
  interfaces : Fetch (List (String × IfaceData))
  dhcp : Fetch (List DhcpEntry)
  arp : Fetch (List String)
deriving DecidableEq

/-- The rate tracker's process-lifetime state: `_previous_interface_stats`
as an association list (first match wins, updates prepend) and
`_last_interface_poll` in seconds (main.py:137-138). -/
abbrev PrevStats := List (String × (Int × Int))

structure RateState where
  prev : PrevStats
  lastPoll : Option Rat
deriving DecidableEq

/-- A client channel of the connection registry; `sendFails` says whether
`send_json` to it raises (main.py:108-131). -/
structure Channel where
  id : Nat
  sendFails : Bool
deriving DecidableEq

-- ===========================================================================
-- Source adapters (main.py:207-744)
-- ===========================================================================

/-- Health derivation of `get_node_metrics` (main.py:279-288): NotReady
wins, then "no data" on both of cpu/ram, then the warning thresholds. -/
def node_health (status : String) (cpu ram : Option Rat) : String :=
  let has_metrics := cpu.isSome || ram.isSome
  if status == "NotReady" then "error"
  else if !has_metrics then "unknown"
  else if cpu.any (fun c => decide (c ≥ 80)) || ram.any (fun r => decide (r ≥ 85)) then "warning"
  else "healthy"

/-- Readiness scan of `get_node_metrics` (main.py:230-234): the first
condition of type "Ready" decides; none present means "NotReady". -/
def readyOf : List (String × String) → String
  | [] => "NotReady"
  | (t, s) :: rest => if t == "Ready" then (if s == "True" then "Ready" else "NotReady") else readyOf rest

/-- `get_node_metrics` (main.py:207-300).  `promClient` models `prom`
being initialized (queries are only attempted when it is), `k8sClient`
models `k8s_core_v1`; `k8sNodes` is the outcome of `list_node` and
`nodeCfgs` pairs each configured node with its three query outcomes. -/
def get_node_metrics (promEnabled promClient k8sEnabled k8sClient : Bool)
    (k8sNodes : Fetch (List K8sNodeInfo))
    (nodeCfgs : List (NodeConfig × NodeQueries)) : List NodeEntry :=
  if !promEnabled || nodeCfgs.isEmpty then []
  else
    let k8s_node_status : List (String × String) :=
      if k8sEnabled && k8sClient then
        match k8sNodes with
        | .ok l => l.map (fun n => (n.name, readyOf n.conditions))
        | .err => []
      else []
    nodeCfgs.map (fun nq =>
      let node_ip := hostIp nq.1.host
      let q := if promClient then nq.2 else ⟨none, none, none⟩
      let status := ((k8s_node_status.lookup nq.1.name).getD "Unknown")
      { name := nq.1.name
        ip := node_ip
        status := status
        cpu := q.cpu.map (fun v => pyRound v 1)
        ram := q.ram.map (fun v => pyRound v 1)
        disk := q.disk.map (fun v => pyRound v 1)
        health := node_health status q.cpu q.ram })

/-- Per-row alert construction of `get_active_alerts` (main.py:317-334),
including the label defaults and the id normalization. -/
def mkAlert (nowIso : String) (r : RawAlert) : Alert :=
  let alertname := r.alertname.getD "Unknown"
  let inst := r.inst.getD ""
  let severity := r.severity.getD "warning"
  let description := r.description.getD (r.summary.getD ("Alert: " ++ alertname))
  { id := ((alertname ++ "_" ++ inst).replace ":" "_").replace "/" "_"
    alertname := alertname
    severity := severity
    inst := inst
    description := description
    category := categorize_alert alertname
    time := nowIso }

/-- `get_active_alerts` (main.py:303-338): empty when the feature is off,
the client missing, or the query fails. -/
def get_active_alerts (promEnabled promClient : Bool)
    (o : Fetch (List RawAlert)) (nowIso : String) : List Alert :=
  if !promEnabled || !promClient then []
  else
    match o with
    | .ok rows => rows.map (mkAlert nowIso)
    | .err => []

/-- `check_service` (main.py:359-395): classification of one health check.
Note `round(response_time, 1) if response_time else None`: a (measure-zero)
elapsed time of exactly 0 ms is falsy in Python and yields `none`. -/
def check_service (sc : ServiceConfig) (oc : CheckOutcome) : ServiceEntry :=
  let host := sc.host.getD ""
  let display_url := if host ≠ "" then "http://" ++ host else sc.url
  let status :=
    match oc with
    | .response s _ => if s < 400 then "up" else "degraded"
    | .timeout => "down"
    | .failure => "down"
  let response_time : Option Rat :=
    match oc with
    | .response _ ms => some ms
    | _ => none
  { name := sc.name
    url := display_url
    status := status
    responseTime := match response_time with
      | some ms => if ms ≠ 0 then some (pyRound ms 1) else none
      | none => none }

/-- `get_service_status` (main.py:341-413): the early return for an empty
service list, then the concurrent checks and the health score
`(up_count / total_count) * 100` rounded to one decimal. -/
def get_service_status (checks : List (ServiceConfig × CheckOutcome)) : ServiceResult :=
  if checks.isEmpty then
    { services := [], healthScore := 100, upCount := 0, totalCount := 0 }
  else
    let services := checks.map (fun c => check_service c.1 c.2)
    let up_count := (services.filter (fun s => s.status == "up")).length
    let total_count := checks.length
    let health_score : Rat := if total_count > 0 then ((up_count : Rat) / (total_count : Rat)) * 100 else 0
    { services := services
      healthScore := pyRound health_score 1
      upCount := up_count
      totalCount := total_count }

/-- `get_cluster_overview` (main.py:416-468): three independently wrapped
listing calls; a failing call leaves its fields at the zero defaults. -/
def get_cluster_overview (k8sEnabled k8sClient : Bool)
    (pods : Fetch (List String)) (nss : Fetch (List Unit))
    (nodes : Fetch (List K8sNodeInfo)) : ClusterOverview :=
  if !k8sEnabled || !k8sClient then
    { pods := ⟨0, 0, 0, 0⟩, namespaces := 0, nodes := 0, nodesReady := 0 }
  else
    let podCounts : PodCounts :=
      match pods with
      | .ok phases =>
        { running := (phases.filter (fun p => p == "Running")).length
          pending := (phases.filter (fun p => p == "Pending")).length
          failed := (phases.filter (fun p => p == "Failed" || p == "Unknown")).length
          total := phases.length }
      | .err => ⟨0, 0, 0, 0⟩
    let nsCount := match nss with | .ok l => l.length | .err => 0
    let nodeCounts : Nat × Nat :=
      match nodes with
      | .ok l =>
        (l.length,
         (l.filter (fun n => n.conditions.any (fun c => c.1 == "Ready" && c.2 == "True"))).length)
      | .err => (0, 0)
    { pods := podCounts
      namespaces := nsCount
      nodes := nodeCounts.1
      nodesReady := nodeCounts.2 }

/-- Sort key of `get_recent_activity` (main.py:489-493):
`e.last_timestamp or e.event_time or datetime.min`; `none` plays the role
of `datetime.min` (below every real timestamp). -/
def keyOf (e : K8sEvent) : Option Int :=
  match e.last_timestamp with
  | some t => some t
  | none => e.event_time

/-- Strict order on sort keys, with the missing key at the bottom. -/
def keyLt (a b : Option Int) : Bool :=
  match a, b with
  | none, none => false
  | none, some _ => true
  | some _, none => false
  | some x, some y => decide (x < y)

/-- Stable insertion into a list already sorted by descending key. -/
def insertByTime (e : K8sEvent) : List K8sEvent → List K8sEvent
  | [] => [e]
  | x :: xs => if keyLt (keyOf e) (keyOf x) then x :: insertByTime e xs else e :: x :: xs

/-- Model of `sorted(events, key=..., reverse=True)` (main.py:489-493):
a stable sort by descending key. -/
def sortByTimeDesc (l : List K8sEvent) : List K8sEvent := l.foldr insertByTime []

/-- Message truncation of `get_recent_activity` (main.py:505-507). -/
def truncMsg (m : String) : String :=
  if m.length > 80 then String.mk (m.data.take 77) ++ "..." else m

/-- Per-event formatting of `get_recent_activity` (main.py:495-520). -/
def formatEvent (now : Int) (e : K8sEvent) : ActivityItem :=
  let time_ago :=
    match keyOf e with
    | some t => format_time_ago (now - t)
    | none => "unknown"
  { time := time_ago
    message := truncMsg e.message
    type := e.type.getD "Normal"
    source := e.source_component
    ns := e.ns
    reason := e.reason }

/-- `get_recent_activity` (main.py:471-524): sort descending by timestamp,
keep the top 10, format each event; empty on a failed listing. -/
def get_recent_activity (k8sEnabled k8sClient : Bool)
    (events : Fetch (List K8sEvent)) (now : Int) : List ActivityItem :=
  if !k8sEnabled || !k8sClient then []
  else
    match events with
    | .ok evs => ((sortByTimeDesc evs).take 10).map (formatEvent now)
    | .err => []

-- ===========================================================================
-- Network appliance adapter and rate tracker (main.py:527-744)
-- ===========================================================================

/-- Interface filter (main.py:658): physical/vlan/aggregate types or the
fixed name allow-list. -/
def retained (name : String) (d : IfaceData) : Bool :=
  d.type == "physical" || d.type == "vlan" || d.type == "aggregate" ||
  name == "wan1" || name == "wan2" || name == "lan" || name == "internal"

/-- IP extraction (main.py:660-664): the `ip` field if truthy, else the
first entry of the `ipv4` list, else empty. -/
def ifaceIp (d : IfaceData) : String :=
  if d.ip ≠ "" then d.ip
  else match d.ipv4 with
       | i :: _ => i
       | [] => ""

/-- Lookup in the `_previous_interface_stats` association list. -/
def lookupStat (m : PrevStats) (k : String) : Option (Int × Int) := m.lookup k

/-- The rate computation of main.py:669-680: zero without a previous
sample or a positive elapsed time; otherwise per-direction deltas, a
negative delta (counter reset/wrap) reporting zero for that direction. -/
def ifaceRates (prev : Option (Int × Int)) (elapsed : Rat) (rx tx : Int) : Rat × Rat :=
  match prev with
  | none => (0, 0)
  | some p =>
    if elapsed > 0 then
      ((if rx - p.1 ≥ 0 then ((rx - p.1) * 8 : Int) / (elapsed * 1000000) else 0),
       (if tx - p.2 ≥ 0 then ((tx - p.2) * 8 : Int) / (elapsed * 1000000) else 0))
    else (0, 0)

/-- The elapsed-time rule of main.py:652-654: 5 seconds by default,
otherwise `max(now - last_poll, 1.0)`. -/
def elapsedOf (lastPoll : Option Rat) (now : Rat) : Rat :=
  match lastPoll with
  | some t => max (now - t) 1
  | none => 5

/-- The interface loop of main.py:656-697: filter, compute rates against
the stored sample, overwrite the stored sample, emit the entry. -/
def processIfaces (elapsed : Rat) : List (String × IfaceData) → PrevStats → List InterfaceEntry × PrevStats
  | [], prev => ([], prev)
  | (name, d) :: rest, prev =>
    if retained name d then
      let rates := ifaceRates (lookupStat prev name) elapsed d.rx_bytes d.tx_bytes
      let prev2 : PrevStats := (name, (d.rx_bytes, d.tx_bytes)) :: prev
      let r := processIfaces elapsed rest prev2
      ({ name := name
         ip := ifaceIp d
         status := if d.link then "up" else "down"
         speed := d.speed
         rxBytes := d.rx_bytes
         txBytes := d.tx_bytes
         rxRate := pyRound rates.1 2
         txRate := pyRound rates.2 2 } :: r.1, r.2)
    else processIfaces elapsed rest prev

/-- The fixed empty-shape firewall block (main.py:540-549). -/
def emptyFirewall : FirewallBlock :=
  { hostname := "Unknown", model := "Unknown", firmware := "Unknown"
    uptime := 0, uptimeFormatted := "Unknown", cpu := 0, memory := 0
    status := "unknown" }

/-- The fixed empty-shape network document (main.py:539-554). -/
def emptyNetwork : NetworkStatus :=
  { firewall := emptyFirewall, interfaces := [], dhcpLeases := 0
    deviceCount := 0, available := false }

/-- `get_network_status` (main.py:527-744), returning the document and
the updated rate-tracker state.  Each endpoint's contribution is guarded
by its own outcome; only a successful interface fetch touches the state. -/
def get_network_status (fwEnabled : Bool) (apiKey fwType : String)
    (o : FortiOutcomes) (st : RateState) (now : Rat) : NetworkStatus × RateState :=
  if !fwEnabled then (emptyNetwork, st)
  else if apiKey == "" then (emptyNetwork, st)
  else if fwType != "fortigate" then (emptyNetwork, st)
  else
    match o.connect with
    | .err => ({ emptyNetwork with firewall := { emptyFirewall with status := "error" } }, st)
    | .ok _ =>
      let fw0 := emptyFirewall
      let statusPart : FirewallBlock × Bool :=
        match o.status with
        | .ok s =>
          ({ fw0 with
              hostname := s.hostname
              model := if s.model_number ≠ "" then s.model_name ++ "-" ++ s.model_number else s.model_name
              firmware := s.version
              status := "online" }, true)
        | .err => (fw0, false)
      let fw1 := statusPart.1
      let fw2 :=
        match o.resource with
        | .ok r =>
          let fa := match r.cpu with | c :: _ => { fw1 with cpu := pyRound c 1 } | [] => fw1
          match r.mem with | m :: _ => { fa with memory := pyRound m 1 } | [] => fa
        | .err => fw1
      let fw3 :=
        match o.perf with
        | .ok uptime_seconds =>
          if uptime_seconds > 0 then
            { fw2 with uptime := uptime_seconds, uptimeFormatted := format_uptime uptime_seconds }
          else fw2
        | .err => fw2
      let ifacePart : List InterfaceEntry × RateState :=
        match o.interfaces with
        | .ok rows =>
          let elapsed := elapsedOf st.lastPoll now
          let r := processIfaces elapsed rows st.prev
          (r.1, { prev := r.2, lastPoll := some now })
        | .err => ([], st)
      let leases :=
        match o.dhcp with
        | .ok rows => (rows.filter (fun e => e.ip != "" && e.mac != "")).length
        | .err => 0
      let devices :=
        match o.arp with
        | .ok macs => ((macs.filter (fun m => m != "" && m != "00:00:00:00:00:00")).dedup).length
        | .err => 0
      ({ firewall := fw3
         interfaces := ifacePart.1
         dhcpLeases := leases
         deviceCount := devices
         available := statusPart.2 }, ifacePart.2)

-- ===========================================================================
-- Snapshot assembly (main.py:835-934)
-- ===========================================================================

/-- The fixed empty-shape cluster overview used for a disabled kubernetes
feature (main.py:891-896, 902-907). -/
def emptyCluster : ClusterOverview :=
  { pods := ⟨0, 0, 0, 0⟩, namespaces := 0, nodes := 0, nodesReady := 0 }

/-- Infrastructure block of the snapshot. -/
structure Infra where
  nodes : List NodeEntry
  cluster : ClusterOverview
deriving DecidableEq

/-- Alerts block of the snapshot: items and their count. -/
structure AlertsBlock where
  items : List Alert
  count : Nat
deriving DecidableEq

/-- The heterogeneous values of the top-level snapshot dict. -/
inductive DashVal where
  | timestampV : String → DashVal
  | servicesV : ServiceResult → DashVal
  | infraV : Infra → DashVal
  | alertsV : AlertsBlock → DashVal
  | activityV : List ActivityItem → DashVal
  | networkV : NetworkStatus → DashVal
deriving DecidableEq

/-- The dict-construction of `get_dashboard` (main.py:857-934) given the
adapter results: every branch inserts every top-level key, substituting
the fixed empty shapes for disabled features. -/
def get_dashboard (cfg : Features) (ts : String) (svc : ServiceResult)
    (nodes : List NodeEntry) (alerts : List Alert) (cluster : ClusterOverview)
    (activity : List ActivityItem) (network : NetworkStatus) :
    List (String × DashVal) :=
  let base := [("timestamp", DashVal.timestampV ts), ("services", DashVal.servicesV svc)]
  let mid :=
    if cfg.prometheus || cfg.kubernetes then
      let nodesPart := if cfg.prometheus then nodes else []
      let alertsPart : AlertsBlock :=
        if cfg.prometheus then ⟨alerts, alerts.length⟩ else ⟨[], 0⟩
      let clusterPart := if cfg.kubernetes then cluster else emptyCluster
      let activityPart := if cfg.kubernetes then activity else []
      [("infrastructure", DashVal.infraV ⟨nodesPart, clusterPart⟩),
       ("alerts", DashVal.alertsV alertsPart),
       ("activity", DashVal.activityV activityPart)]
    else
      [("infrastructure", DashVal.infraV ⟨[], emptyCluster⟩),
       ("alerts", DashVal.alertsV ⟨[], 0⟩),
       ("activity", DashVal.activityV [])]
  let net := if cfg.firewall then network else emptyNetwork
  base ++ mid ++ [("network", DashVal.networkV net)]

/-- All adapter-side inputs of one full-dashboard assembly: the per-call
outcomes of every underlying fetch, plus the client-availability flags
and firewall credentials resolved at startup. -/
structure AdapterInputs where
  svcChecks : List (ServiceConfig × CheckOutcome)
  promClient : Bool
  k8sClient : Bool
  nodeCfgs : List (NodeConfig × NodeQueries)
  k8sNodesForStatus : Fetch (List K8sNodeInfo)
  alerts : Fetch (List RawAlert)
  pods : Fetch (List String)
  namespaces : Fetch (List Unit)
  k8sNodes : Fetch (List K8sNodeInfo)
  events : Fetch (List K8sEvent)
  forti : FortiOutcomes
  apiKey : String
  fwType : String
deriving DecidableEq

/-- `get_dashboard` end to end (main.py:835-934): run every adapter on
its own inputs and assemble the snapshot.  Totality of this function is
the model of "the assembly never raises". -/
def assemble (cfg : Features) (inp : AdapterInputs) (st : RateState)
    (nowIso : String) (nowEvents : Int) (nowPoll : Rat) :
    List (String × DashVal) × RateState :=
  let svc := get_service_status inp.svcChecks
  let nodes := get_node_metrics cfg.prometheus inp.promClient cfg.kubernetes inp.k8sClient
    inp.k8sNodesForStatus inp.nodeCfgs
  let alerts := get_active_alerts cfg.prometheus inp.promClient inp.alerts nowIso
  let cluster := get_cluster_overview cfg.kubernetes inp.k8sClient inp.pods inp.namespaces inp.k8sNodes
  let activity := get_recent_activity cfg.kubernetes inp.k8sClient inp.events nowEvents
  let net := get_network_status cfg.firewall inp.apiKey inp.fwType inp.forti st nowPoll
  (get_dashboard cfg nowIso svc nodes alerts cluster activity net.1, net.2)

-- Projections used to state properties of the snapshot dict.

/-- The services block of a snapshot, when present. -/
def servicesOf (snap : List (String × DashVal)) : Option ServiceResult :=
  match snap.lookup "services" with
  | some (DashVal.servicesV s) => some s
  | _ => none

/-- The node list of the infrastructure block, when present. -/
def infraNodesOf (snap : List (String × DashVal)) : Option (List NodeEntry) :=
  match snap.lookup "infrastructure" with
  | some (DashVal.infraV i) => some i.nodes
  | _ => none

/-- The cluster overview of the infrastructure block, when present. -/
def clusterOf (snap : List (String × DashVal)) : Option ClusterOverview :=
  match snap.lookup "infrastructure" with
  | some (DashVal.infraV i) => some i.cluster
  | _ => none

/-- The alerts block of a snapshot, when present. -/
def alertsBlockOf (snap : List (String × DashVal)) : Option AlertsBlock :=
  match snap.lookup "alerts" with
  | some (DashVal.alertsV a) => some a
  | _ => none

/-- The activity list of a snapshot, when present. -/
def activityOf (snap : List (String × DashVal)) : Option (List ActivityItem) :=
  match snap.lookup "activity" with
  | some (DashVal.activityV a) => some a
  | _ => none

/-- The network block of a snapshot, when present. -/
def networkOf (snap : List (String × DashVal)) : Option NetworkStatus :=
  match snap.lookup "network" with
  | some (DashVal.networkV n) => some n
  | _ => none

-- ===========================================================================
-- Connection registry (main.py:108-131)
-- ===========================================================================

/-- `ConnectionManager.disconnect` (main.py:117-120): remove the first
occurrence, guarded by membership (so it never raises). -/
def disconnect (conns : List Channel) (w : Channel) : List Channel :=
  if w ∈ conns then conns.erase w else conns

/-- The send loop of `ConnectionManager.broadcast` (main.py:122-128):
attempt a send to every registered channel in order, collecting the
channels whose send raised.  Returns (disconnected, attempted). -/
def broadcastScan : List Channel → List Channel × List Channel
  | [] => ([], [])
  | c :: rest =>
    let r := broadcastScan rest
    (if c.sendFails then c :: r.1 else r.1, c :: r.2)

/-- `ConnectionManager.broadcast` (main.py:122-131): the send loop, then
disconnection of every collected failure.  Returns the new registry and
the list of channels a send was attempted to. -/
def broadcast (conns : List Channel) : List Channel × List Channel :=
  let s := broadcastScan conns
  (s.1.foldl disconnect conns, s.2)

-- ===========================================================================
-- Concrete scenario values and statement-level definitions
-- ===========================================================================

/-- "a is not below b" on sort keys: the descending-order relation the
activity list is sorted by. -/
def keyGe (x y : K8sEvent) : Prop := keyLt (keyOf x) (keyOf y) = false

/-- FortiGate outcomes with a working session but every endpoint call
failing: the total-failure case of the network adapter. -/
def fortiAllFail : FortiOutcomes :=
  { connect := .ok (), status := .err, resource := .err, perf := .err
    interfaces := .err, dhcp := .err, arp := .err }

/-- A physical interface row with the given byte counters. -/
def c3Iface (rx tx : Int) : IfaceData :=
  { type := "physical", ip := "", ipv4 := [], rx_bytes := rx, tx_bytes := tx
    link := true, speed := 1000 }

/-- FortiGate outcomes where only the interface endpoint answers,
reporting `wan1` with the given counters. -/
def c3Forti (rx tx : Int) : FortiOutcomes :=
  { connect := .ok (), status := .err, resource := .err, perf := .err
    interfaces := .ok [("wan1", c3Iface rx tx)], dhcp := .err, arp := .err }

/-- Rate-tracker state after the first observation of `wan1` with
(rx=1000, tx=500) at t0 = 0, starting from the empty state. -/
def c3State1 : RateState :=
  (get_network_status true "k" "fortigate" (c3Forti 1000 500) ⟨[], none⟩ 0).2

/-- Network document of the second poll at t0+5s with
(rx=1_625_000, tx=625_000). -/
def c3Second : NetworkStatus :=
  (get_network_status true "k" "fortigate" (c3Forti 1625000 625000) c3State1 5).1

/-- Stored sample for the counter-reset scenario. -/
def c4m : PrevStats := [("wan1", (1000, 500))]

/-- Interface row whose rx counter dropped below the stored sample while
tx advanced by 625_000 bytes. -/
def c4d : IfaceData :=
  { type := "physical", ip := "", ipv4 := [], rx_bytes := 900, tx_bytes := 625500
    link := true, speed := 0 }

/-- A channel pair registered twice: the registry state refuting
idempotent removal. -/
def dupW : Channel := ⟨0, false⟩

/-- One healthy configured service check. -/
def c10checks : List (ServiceConfig × CheckOutcome) :=
  [(⟨"grafana", "http://10.0.0.2", none, none⟩, CheckOutcome.response 200 5)]

/-- A 120-character message. -/
def c7msg : String := String.mk (List.replicate 120 'x')

/-- A concrete cluster event carrying that message. -/
def c7event : K8sEvent :=
  { last_timestamp := some 100, event_time := none, message := c7msg
    type := some "Warning", source_component := "kubelet", ns := "default"
    reason := "BackOff" }

-- ===========================================================================
-- Helper lemmas
-- ===========================================================================

lemma keyLt_asymm (a b : Option Int) (h : keyLt a b = true) : keyLt b a = false := by
  cases a <;> cases b <;> simp_all [keyLt]
  omega

lemma keyLt_neg_trans (a b c : Option Int) (h1 : keyLt a b = false) (h2 : keyLt b c = false) :
    keyLt a c = false := by
  cases a <;> cases b <;> cases c <;> simp_all [keyLt]
  omega

lemma mem_insertByTime (e a : K8sEvent) (l : List K8sEvent) :
    a ∈ insertByTime e l ↔ a = e ∨ a ∈ l := by
  induction l with
  | nil => simp [insertByTime]
  | cons x xs ih =>
    rw [insertByTime]
    by_cases hlt : keyLt (keyOf e) (keyOf x) = true
    · rw [if_pos hlt]
      simp only [List.mem_cons, ih]
      tauto
    · rw [if_neg hlt]
      simp only [List.mem_cons]

lemma pairwise_insertByTime (e : K8sEvent) (l : List K8sEvent) (h : l.Pairwise keyGe) :
    (insertByTime e l).Pairwise keyGe := by
  induction l with
  | nil => simp [insertByTime]
  | cons x xs ih =>
    rw [insertByTime]
    rcases List.pairwise_cons.mp h with ⟨hx, hxs⟩
    by_cases hlt : keyLt (keyOf e) (keyOf x) = true
    · rw [if_pos hlt]
      refine List.pairwise_cons.mpr ⟨?_, ih hxs⟩
      intro y hy
      rcases (mem_insertByTime e y xs).mp hy with rfl | hyxs
      · exact keyLt_asymm _ _ hlt
      · exact hx y hyxs
    · rw [if_neg hlt]
      have he : keyLt (keyOf e) (keyOf x) = false := Bool.eq_false_iff.mpr hlt
      refine List.pairwise_cons.mpr ⟨?_, h⟩
      intro y hy
      rcases List.mem_cons.mp hy with rfl | hyxs
      · exact he
      · exact keyLt_neg_trans _ _ _ he (hx y hyxs)

lemma pairwise_sortByTimeDesc (l : List K8sEvent) : (sortByTimeDesc l).Pairwise keyGe := by
  induction l with
  | nil => exact List.Pairwise.nil
  | cons x xs ih => exact pairwise_insertByTime x (sortByTimeDesc xs) ih

lemma broadcastScan_fst (l : List Channel) :
    (broadcastScan l).1 = l.filter (fun c => c.sendFails) := by
  induction l with
  | nil => rfl
  | cons c t ih =>
    rw [broadcastScan, List.filter_cons]
    cases hc : c.sendFails <;> simp [hc, ih]

lemma broadcastScan_snd (l : List Channel) : (broadcastScan l).2 = l := by
  induction l with
  | nil => rfl
  | cons c t ih => rw [broadcastScan]; simp [ih]

lemma foldl_disconnect_keep (ds : List Channel) :
    ∀ (acc : List Channel) (c : Channel), c.sendFails = false →
      (∀ d ∈ ds, d.sendFails = true) →
      ds.foldl disconnect (c :: acc) = c :: ds.foldl disconnect acc := by
  induction ds with
  | nil => intro acc c _ _; rfl
  | cons d ds ih =>
    intro acc c hc hds
    have hdc : (c == d) = false := by
      refine beq_eq_false_iff_ne.mpr ?_
      intro h
      rw [h] at hc
      rw [hds d (List.mem_cons_self d ds)] at hc
      exact Bool.noConfusion hc
    have hne : d ≠ c := by
      intro h
      have h2 := hds d (List.mem_cons_self d ds)
      rw [h] at h2
      rw [hc] at h2
      exact Bool.noConfusion h2
    have step : disconnect (c :: acc) d = c :: disconnect acc d := by
      by_cases hmem : d ∈ acc
      · rw [disconnect, if_pos (List.mem_cons_of_mem c hmem), disconnect, if_pos hmem,
          List.erase_cons]
        rw [hdc]
        simp
      · have : d ∉ c :: acc := by
          intro h
          rcases List.mem_cons.mp h with h | h
          · exact hne h
          · exact hmem h
        rw [disconnect, if_neg this, disconnect, if_neg hmem]
    rw [List.foldl_cons, List.foldl_cons, step]
    exact ih (disconnect acc d) c hc (fun x hx => hds x (List.mem_cons_of_mem d hx))

lemma foldl_disconnect_filter (l : List Channel) :
    (l.filter (fun c => c.sendFails)).foldl disconnect l = l.filter (fun c => !c.sendFails) := by
  induction l with
  | nil => rfl
  | cons c t ih =>
    cases hc : c.sendFails
    · have h1 : List.filter (fun x => x.sendFails) (c :: t) =
          List.filter (fun x => x.sendFails) t := by
        simp [List.filter_cons, hc]
      have h2 : List.filter (fun x => !x.sendFails) (c :: t) =
          c :: List.filter (fun x => !x.sendFails) t := by
        simp [List.filter_cons, hc]
      rw [h1, h2, foldl_disconnect_keep _ t c hc (fun d hd => (List.mem_filter.mp hd).2), ih]
    · have h1 : List.filter (fun x => x.sendFails) (c :: t) =
          c :: List.filter (fun x => x.sendFails) t := by
        simp [List.filter_cons, hc]
      have h2 : List.filter (fun x => !x.sendFails) (c :: t) =
          List.filter (fun x => !x.sendFails) t := by
        simp [List.filter_cons, hc]
      rw [h1, h2, List.foldl_cons]
      have h3 : disconnect (c :: t) c = t := by
        rw [disconnect, if_pos (List.mem_cons_self c t), List.erase_cons_head]
      rw [h3, ih]

lemma assemble_services (cfg : Features) (inp : AdapterInputs) (st : RateState)
    (a : String) (b : Int) (c : Rat) :
    servicesOf (assemble cfg inp st a b c).1 = some (get_service_status inp.svcChecks) := by
  rcases cfg with ⟨p, k, f⟩
  cases p <;> cases k <;> cases f <;> rfl

lemma assemble_nodes (cfg : Features) (inp : AdapterInputs) (st : RateState)
    (a : String) (b : Int) (c : Rat) :
    infraNodesOf (assemble cfg inp st a b c).1 =
      some (if cfg.prometheus then
              get_node_metrics cfg.prometheus inp.promClient cfg.kubernetes inp.k8sClient
                inp.k8sNodesForStatus inp.nodeCfgs
            else []) := by
  rcases cfg with ⟨p, k, f⟩
  cases p <;> cases k <;> cases f <;> rfl

lemma assemble_alerts (cfg : Features) (inp : AdapterInputs) (st : RateState)
    (a : String) (b : Int) (c : Rat) :
    alertsBlockOf (assemble cfg inp st a b c).1 =
      some (if cfg.prometheus then
              ⟨get_active_alerts cfg.prometheus inp.promClient inp.alerts a,
               (get_active_alerts cfg.prometheus inp.promClient inp.alerts a).length⟩
            else ⟨[], 0⟩) := by
  rcases cfg with ⟨p, k, f⟩
  cases p <;> cases k <;> cases f <;> rfl

lemma assemble_cluster (cfg : Features) (inp : AdapterInputs) (st : RateState)
    (a : String) (b : Int) (c : Rat) :
    clusterOf (assemble cfg inp st a b c).1 =
      some (if cfg.kubernetes then
              get_cluster_overview cfg.kubernetes inp.k8sClient inp.pods inp.namespaces inp.k8sNodes
            else emptyCluster) := by
  rcases cfg with ⟨p, k, f⟩
  cases p <;> cases k <;> cases f <;> rfl

lemma assemble_activity (cfg : Features) (inp : AdapterInputs) (st : RateState)
    (a : String) (b : Int) (c : Rat) :
    activityOf (assemble cfg inp st a b c).1 =
      some (if cfg.kubernetes then
              get_recent_activity cfg.kubernetes inp.k8sClient inp.events b
            else []) := by
  rcases cfg with ⟨p, k, f⟩
  cases p <;> cases k <;> cases f <;> rfl

lemma assemble_network (cfg : Features) (inp : AdapterInputs) (st : RateState)
    (a : String) (b : Int) (c : Rat) :
    networkOf (assemble cfg inp st a b c).1 =
      some (if cfg.firewall then
              (get_network_status cfg.firewall inp.apiKey inp.fwType inp.forti st c).1
            else emptyNetwork) := by
  rcases cfg with ⟨p, k, f⟩
  cases p <;> cases k <;> cases f <;> rfl

lemma alerts_err_empty (pe pc : Bool) (a : String) :
    get_active_alerts pe pc .err a = [] := by
  cases pe <;> cases pc <;> rfl

lemma activity_err_empty (ke kc : Bool) (b : Int) :
    get_recent_activity ke kc .err b = [] := by
  cases ke <;> cases kc <;> rfl

lemma cluster_err_empty (ke kc : Bool) :
    get_cluster_overview ke kc .err .err .err = emptyCluster := by
  cases ke <;> cases kc <;> rfl

lemma network_allFail (en : Bool) (key ft : String) (st : RateState) (now : Rat) :
    get_network_status en key ft fortiAllFail st now = (emptyNetwork, st) := by
  cases en
  · rfl
  · rw [get_network_status]
    split_ifs <;> rfl

lemma node_err_unknown (pc ke kc : Bool) (nc : NodeConfig) :
    get_node_metrics true pc ke kc .err [(nc, ⟨none, none, none⟩)] =
      [⟨nc.name, hostIp nc.host, "Unknown", none, none, none, "unknown"⟩] := by
  cases pc <;> cases ke <;> cases kc <;> rfl

-- ===========================================================================
-- Claims
-- ===========================================================================

/-- C1: for every feature configuration and every adapter outcome, the
assembled snapshot contains all six top-level keys (timestamp, services,
infrastructure, alerts, activity, network), and each disabled feature's
block is exactly its fixed empty-shape placeholder: prometheus off forces
`infrastructure.nodes = []` and `alerts = {items: [], count: 0}`,
kubernetes off forces the all-zero cluster overview and `activity = []`,
firewall off forces the unavailable placeholder network document, and with
everything disabled and no services configured the services block is the
empty early-return value. -/
theorem c1_snapshot_shape :
    ∀ (p k f : Bool) (inp : AdapterInputs) (st : RateState) (a : String) (b : Int) (c : Rat),
      (((assemble ⟨p, k, f⟩ inp st a b c).1.lookup "timestamp").isSome = true ∧
       ((assemble ⟨p, k, f⟩ inp st a b c).1.lookup "services").isSome = true ∧
       ((assemble ⟨p, k, f⟩ inp st a b c).1.lookup "infrastructure").isSome = true ∧
       ((assemble ⟨p, k, f⟩ inp st a b c).1.lookup "alerts").isSome = true ∧
       ((assemble ⟨p, k, f⟩ inp st a b c).1.lookup "activity").isSome = true ∧
       ((assemble ⟨p, k, f⟩ inp st a b c).1.lookup "network").isSome = true) ∧
      (infraNodesOf (assemble ⟨false, k, f⟩ inp st a b c).1 = some [] ∧
       alertsBlockOf (assemble ⟨false, k, f⟩ inp st a b c).1 = some ⟨[], 0⟩) ∧
      (clusterOf (assemble ⟨p, false, f⟩ inp st a b c).1 = some emptyCluster ∧
       activityOf (assemble ⟨p, false, f⟩ inp st a b c).1 = some []) ∧
      networkOf (assemble ⟨p, k, false⟩ inp st a b c).1 = some emptyNetwork ∧
      servicesOf (assemble ⟨false, false, false⟩ { inp with svcChecks := [] } st a b c).1 =
        some ⟨[], 100, 0, 0⟩ := by
  intro p k f inp st a b c
  cases p <;> cases k <;> cases f <;>
    exact ⟨⟨rfl, rfl, rfl, rfl, rfl, rfl⟩, ⟨rfl, rfl⟩, ⟨rfl, rfl⟩, rfl, rfl⟩

/-- C2: the assembly is fail-soft.  For each adapter: replacing its
underlying fetch outcome by a failure makes exactly that adapter's block
degrade to its documented empty/placeholder result, and replacing its
outcome by anything at all leaves every other block of the same snapshot
unchanged.  `assemble` being a total function is the model of "the
assembly never raises". -/
theorem c2_fail_soft :
    ∀ (p k f : Bool) (inp : AdapterInputs) (st : RateState) (a : String) (b : Int) (c : Rat)
      (oAl : Fetch (List RawAlert)) (oEv : Fetch (List K8sEvent))
      (oPo : Fetch (List String)) (oNs : Fetch (List Unit)) (oKn : Fetch (List K8sNodeInfo))
      (oFo : FortiOutcomes) (oSv : List (ServiceConfig × CheckOutcome))
      (oNc : List (NodeConfig × NodeQueries)) (oKs : Fetch (List K8sNodeInfo))
      (sc : ServiceConfig) (nc : NodeConfig),
      -- failed alerts fetch: empty alerts block, all other blocks untouched
      (alertsBlockOf (assemble ⟨p, k, f⟩ { inp with alerts := .err } st a b c).1 = some ⟨[], 0⟩ ∧
       servicesOf (assemble ⟨p, k, f⟩ { inp with alerts := oAl } st a b c).1 =
         servicesOf (assemble ⟨p, k, f⟩ inp st a b c).1 ∧
       infraNodesOf (assemble ⟨p, k, f⟩ { inp with alerts := oAl } st a b c).1 =
         infraNodesOf (assemble ⟨p, k, f⟩ inp st a b c).1 ∧
       clusterOf (assemble ⟨p, k, f⟩ { inp with alerts := oAl } st a b c).1 =
         clusterOf (assemble ⟨p, k, f⟩ inp st a b c).1 ∧
       activityOf (assemble ⟨p, k, f⟩ { inp with alerts := oAl } st a b c).1 =
         activityOf (assemble ⟨p, k, f⟩ inp st a b c).1 ∧
       networkOf (assemble ⟨p, k, f⟩ { inp with alerts := oAl } st a b c).1 =
         networkOf (assemble ⟨p, k, f⟩ inp st a b c).1) ∧
      -- failed events fetch: empty activity, all other blocks untouched
      (activityOf (assemble ⟨p, k, f⟩ { inp with events := .err } st a b c).1 = some [] ∧
       servicesOf (assemble ⟨p, k, f⟩ { inp with events := oEv } st a b c).1 =
         servicesOf (assemble ⟨p, k, f⟩ inp st a b c).1 ∧
       infraNodesOf (assemble ⟨p, k, f⟩ { inp with events := oEv } st a b c).1 =
         infraNodesOf (assemble ⟨p, k, f⟩ inp st a b c).1 ∧
       clusterOf (assemble ⟨p, k, f⟩ { inp with events := oEv } st a b c).1 =
         clusterOf (assemble ⟨p, k, f⟩ inp st a b c).1 ∧
       alertsBlockOf (assemble ⟨p, k, f⟩ { inp with events := oEv } st a b c).1 =
         alertsBlockOf (assemble ⟨p, k, f⟩ inp st a b c).1 ∧
       networkOf (assemble ⟨p, k, f⟩ { inp with events := oEv } st a b c).1 =
         networkOf (assemble ⟨p, k, f⟩ inp st a b c).1) ∧
      -- all three cluster listings failed: all-zero overview, rest untouched
      (clusterOf (assemble ⟨p, k, f⟩ { inp with pods := .err, namespaces := .err, k8sNodes := .err } st a b c).1 =
         some emptyCluster ∧
       servicesOf (assemble ⟨p, k, f⟩ { inp with pods := oPo, namespaces := oNs, k8sNodes := oKn } st a b c).1 =
         servicesOf (assemble ⟨p, k, f⟩ inp st a b c).1 ∧
       infraNodesOf (assemble ⟨p, k, f⟩ { inp with pods := oPo, namespaces := oNs, k8sNodes := oKn } st a b c).1 =
         infraNodesOf (assemble ⟨p, k, f⟩ inp st a b c).1 ∧
       alertsBlockOf (assemble ⟨p, k, f⟩ { inp with pods := oPo, namespaces := oNs, k8sNodes := oKn } st a b c).1 =
         alertsBlockOf (assemble ⟨p, k, f⟩ inp st a b c).1 ∧
       activityOf (assemble ⟨p, k, f⟩ { inp with pods := oPo, namespaces := oNs, k8sNodes := oKn } st a b c).1 =
         activityOf (assemble ⟨p, k, f⟩ inp st a b c).1 ∧
       networkOf (assemble ⟨p, k, f⟩ { inp with pods := oPo, namespaces := oNs, k8sNodes := oKn } st a b c).1 =
         networkOf (assemble ⟨p, k, f⟩ inp st a b c).1) ∧
      -- every firewall endpoint failed: placeholder network document, rest untouched
      (networkOf (assemble ⟨p, k, f⟩ { inp with forti := fortiAllFail } st a b c).1 = some emptyNetwork ∧
       servicesOf (assemble ⟨p, k, f⟩ { inp with forti := oFo } st a b c).1 =
         servicesOf (assemble ⟨p, k, f⟩ inp st a b c).1 ∧
       infraNodesOf (assemble ⟨p, k, f⟩ { inp with forti := oFo } st a b c).1 =
         infraNodesOf (assemble ⟨p, k, f⟩ inp st a b c).1 ∧
       clusterOf (assemble ⟨p, k, f⟩ { inp with forti := oFo } st a b c).1 =
         clusterOf (assemble ⟨p, k, f⟩ inp st a b c).1 ∧
       alertsBlockOf (assemble ⟨p, k, f⟩ { inp with forti := oFo } st a b c).1 =
         alertsBlockOf (assemble ⟨p, k, f⟩ inp st a b c).1 ∧
       activityOf (assemble ⟨p, k, f⟩ { inp with forti := oFo } st a b c).1 =
         activityOf (assemble ⟨p, k, f⟩ inp st a b c).1) ∧
      -- a failed or timed-out service check degrades that one service to
      -- "down"; any change to the checks leaves the other blocks untouched
      ((check_service sc CheckOutcome.failure).status = "down" ∧
       (check_service sc CheckOutcome.timeout).status = "down" ∧
       infraNodesOf (assemble ⟨p, k, f⟩ { inp with svcChecks := oSv } st a b c).1 =
         infraNodesOf (assemble ⟨p, k, f⟩ inp st a b c).1 ∧
       clusterOf (assemble ⟨p, k, f⟩ { inp with svcChecks := oSv } st a b c).1 =
         clusterOf (assemble ⟨p, k, f⟩ inp st a b c).1 ∧
       alertsBlockOf (assemble ⟨p, k, f⟩ { inp with svcChecks := oSv } st a b c).1 =
         alertsBlockOf (assemble ⟨p, k, f⟩ inp st a b c).1 ∧
       activityOf (assemble ⟨p, k, f⟩ { inp with svcChecks := oSv } st a b c).1 =
         activityOf (assemble ⟨p, k, f⟩ inp st a b c).1 ∧
       networkOf (assemble ⟨p, k, f⟩ { inp with svcChecks := oSv } st a b c).1 =
         networkOf (assemble ⟨p, k, f⟩ inp st a b c).1) ∧
      -- node metrics: with the node-status listing failed and every query
      -- failed, the node degrades to the all-none "unknown" entry; any
      -- change to the node inputs leaves the other blocks untouched
      (get_node_metrics true inp.promClient k inp.k8sClient .err [(nc, ⟨none, none, none⟩)] =
         [⟨nc.name, hostIp nc.host, "Unknown", none, none, none, "unknown"⟩] ∧
       servicesOf (assemble ⟨p, k, f⟩ { inp with nodeCfgs := oNc, k8sNodesForStatus := oKs } st a b c).1 =
         servicesOf (assemble ⟨p, k, f⟩ inp st a b c).1 ∧
       clusterOf (assemble ⟨p, k, f⟩ { inp with nodeCfgs := oNc, k8sNodesForStatus := oKs } st a b c).1 =
         clusterOf (assemble ⟨p, k, f⟩ inp st a b c).1 ∧
       alertsBlockOf (assemble ⟨p, k, f⟩ { inp with nodeCfgs := oNc, k8sNodesForStatus := oKs } st a b c).1 =
         alertsBlockOf (assemble ⟨p, k, f⟩ inp st a b c).1 ∧
       activityOf (assemble ⟨p, k, f⟩ { inp with nodeCfgs := oNc, k8sNodesForStatus := oKs } st a b c).1 =
         activityOf (assemble ⟨p, k, f⟩ inp st a b c).1 ∧
       networkOf (assemble ⟨p, k, f⟩ { inp with nodeCfgs := oNc, k8sNodesForStatus := oKs } st a b c).1 =
         networkOf (assemble ⟨p, k, f⟩ inp st a b c).1) := by
  intro p k f inp st a b c oAl oEv oPo oNs oKn oFo oSv oNc oKs sc nc
  refine ⟨⟨?_, ?_, ?_, ?_, ?_, ?_⟩, ⟨?_, ?_, ?_, ?_, ?_, ?_⟩, ⟨?_, ?_, ?_, ?_, ?_, ?_⟩,
    ⟨?_, ?_, ?_, ?_, ?_, ?_⟩, ⟨rfl, rfl, ?_, ?_, ?_, ?_, ?_⟩, ⟨?_, ?_, ?_, ?_, ?_, ?_⟩⟩
  · rw [assemble_alerts]
    cases p <;> simp [alerts_err_empty]
  · rw [assemble_services, assemble_services]
  · rw [assemble_nodes, assemble_nodes]
  · rw [assemble_cluster, assemble_cluster]
  · rw [assemble_activity, assemble_activity]
  · rw [assemble_network, assemble_network]
  · rw [assemble_activity]
    cases k <;> simp [activity_err_empty]
  · rw [assemble_services, assemble_services]
  · rw [assemble_nodes, assemble_nodes]
  · rw [assemble_cluster, assemble_cluster]
  · rw [assemble_alerts, assemble_alerts]
  · rw [assemble_network, assemble_network]
  · rw [assemble_cluster]
    cases k <;> simp [cluster_err_empty]
  · rw [assemble_services, assemble_services]
  · rw [assemble_nodes, assemble_nodes]
  · rw [assemble_alerts, assemble_alerts]
  · rw [assemble_activity, assemble_activity]
  · rw [assemble_network, assemble_network]
  · rw [assemble_network]
    cases f <;> simp [network_allFail]
  · rw [assemble_services, assemble_services]
  · rw [assemble_nodes, assemble_nodes]
  · rw [assemble_cluster, assemble_cluster]
  · rw [assemble_alerts, assemble_alerts]
  · rw [assemble_activity, assemble_activity]
  · rw [assemble_nodes, assemble_nodes]
  · rw [assemble_cluster, assemble_cluster]
  · rw [assemble_alerts, assemble_alerts]
  · rw [assemble_activity, assemble_activity]
  · rw [assemble_network, assemble_network]
  · exact node_err_unknown inp.promClient k inp.k8sClient nc
  · rw [assemble_services, assemble_services]
  · rw [assemble_cluster, assemble_cluster]
  · rw [assemble_alerts, assemble_alerts]
  · rw [assemble_activity, assemble_activity]
  · rw [assemble_network, assemble_network]

lemma ifaceRates_pos (prx ptx rx tx : Int) (e : Rat) (he : 0 < e)
    (h1 : prx ≤ rx) (h2 : ptx ≤ tx) :
    ifaceRates (some (prx, ptx)) e rx tx =
      ((((rx - prx) * 8 : Int) : Rat) / (e * 1000000),
       (((tx - ptx) * 8 : Int) : Rat) / (e * 1000000)) := by
  simp only [ifaceRates]
  rw [if_pos he, if_pos (sub_nonneg.mpr h1), if_pos (sub_nonneg.mpr h2)]

lemma ifaceRates_reset_rx (prx ptx rx tx : Int) (e : Rat) (he : 0 < e)
    (h1 : rx < prx) (h2 : ptx ≤ tx) :
    ifaceRates (some (prx, ptx)) e rx tx =
      (0, (((tx - ptx) * 8 : Int) : Rat) / (e * 1000000)) := by
  simp only [ifaceRates]
  rw [if_pos he, if_neg (not_le.mpr (sub_neg.mpr h1)), if_pos (sub_nonneg.mpr h2)]

lemma ifaceRates_reset_tx (prx ptx rx tx : Int) (e : Rat) (he : 0 < e)
    (h1 : prx ≤ rx) (h2 : tx < ptx) :
    ifaceRates (some (prx, ptx)) e rx tx =
      ((((rx - prx) * 8 : Int) : Rat) / (e * 1000000), 0) := by
  simp only [ifaceRates]
  rw [if_pos he, if_pos (sub_nonneg.mpr h1), if_neg (not_le.mpr (sub_neg.mpr h2))]

lemma processIfaces_single (m : PrevStats) (e : Rat) (name : String) (d : IfaceData)
    (hret : retained name d = true) :
    processIfaces e [(name, d)] m =
      ([{ name := name, ip := ifaceIp d, status := if d.link then "up" else "down"
          speed := d.speed, rxBytes := d.rx_bytes, txBytes := d.tx_bytes
          rxRate := pyRound (ifaceRates (lookupStat m name) e d.rx_bytes d.tx_bytes).1 2
          txRate := pyRound (ifaceRates (lookupStat m name) e d.rx_bytes d.tx_bytes).2 2 }],
       (name, (d.rx_bytes, d.tx_bytes)) :: m) := by
  simp [processIfaces, hret]

lemma net_ifaces (rows : List (String × IfaceData)) (st : RateState) (now : Rat) :
    get_network_status true "k" "fortigate" ⟨.ok (), .err, .err, .err, .ok rows, .err, .err⟩ st now =
      (⟨emptyFirewall, (processIfaces (elapsedOf st.lastPoll now) rows st.prev).1, 0, 0, false⟩,
       ⟨(processIfaces (elapsedOf st.lastPoll now) rows st.prev).2, some now⟩) := by
  rfl

lemma c3_first_poll :
    get_network_status true "k" "fortigate" (c3Forti 1000 500) ⟨[], none⟩ 0 =
      (⟨emptyFirewall, [⟨"wan1", "", "up", 1000, 1000, 500, 0, 0⟩], 0, 0, false⟩,
       ⟨[("wan1", (1000, 500))], some 0⟩) := by
  rw [show c3Forti 1000 500 =
    ⟨.ok (), .err, .err, .err, .ok [("wan1", c3Iface 1000 500)], .err, .err⟩ from rfl]
  rw [net_ifaces]
  norm_num [processIfaces, retained, lookupStat, ifaceRates, elapsedOf, ifaceIp, c3Iface,
    pyRound, roundHalfEven, Rat.floor]

lemma c3_state1_eval : c3State1 = ⟨[("wan1", (1000, 500))], some 0⟩ := by
  rw [c3State1, c3_first_poll]

lemma c3_second_eval :
    c3Second = ⟨emptyFirewall, [⟨"wan1", "", "up", 1000, 1625000, 625000, 2.6, 1⟩], 0, 0, false⟩ := by
  rw [c3Second, c3_state1_eval]
  rw [show c3Forti 1625000 625000 =
    ⟨.ok (), .err, .err, .err, .ok [("wan1", c3Iface 1625000 625000)], .err, .err⟩ from rfl]
  rw [net_ifaces]
  norm_num [processIfaces, retained, lookupStat, ifaceRates, elapsedOf, ifaceIp, c3Iface,
    pyRound, roundHalfEven, Rat.floor, List.lookup]

/-- C3 counterexample: running the spec's own two-poll scenario through
`get_network_status` (first poll of `wan1` with (rx=1000, tx=500) at t0,
second poll at t0+5s with (rx=1_625_000, tx=625_000)) yields
tx_rate = 1.00 Mbps, not the claimed 0.20 Mbps: the tx delta is
625_000 - 500 = 624_500 bytes, and (624_500 * 8) / (5 * 10^6) = 0.9992,
rounded to 1.00.  The first-poll and rx parts of the claim do hold. -/
theorem c3_counterexample :
    c3Second.interfaces.map (fun i => (i.rxRate, i.txRate)) ≠ [(2.6, 0.2)] ∧
    c3Second.interfaces.map (fun i => (i.rxRate, i.txRate)) = [(2.6, 1)] ∧
    (get_network_status true "k" "fortigate" (c3Forti 1000 500) ⟨[], none⟩ 0).1.interfaces.map
      (fun i => (i.rxRate, i.txRate)) = [(0, 0)] := by
  refine ⟨?_, ?_, ?_⟩
  · intro h
    rw [c3_second_eval] at h
    simp only [List.map_cons, List.map_nil, List.cons.injEq, Prod.mk.injEq] at h
    exact absurd h.1.2 (by norm_num)
  · rw [c3_second_eval]
    rfl
  · rw [c3_first_poll]
    rfl

/-- C3 (amended): on first observation of an interface the tracker
returns (0, 0) and stores the sample; on a subsequent observation each
direction's rate is (delta_bytes * 8) / (elapsed * 10^6) Mbps rounded to
2 decimals, with elapsed = max(now - last_poll, 1s); in the spec's
concrete scenario the second poll returns rx_rate 2.60 Mbps and
tx_rate 1.00 Mbps (not 0.20 as the spec example says). -/
theorem c3_rate_tracker :
    (∀ (e : Rat) (rx tx : Int), ifaceRates none e rx tx = (0, 0)) ∧
    (∀ (t now : Rat), elapsedOf (some t) now = max (now - t) 1) ∧
    (∀ (prx ptx rx tx : Int) (e : Rat), 0 < e → prx ≤ rx → ptx ≤ tx →
      ifaceRates (some (prx, ptx)) e rx tx =
        ((((rx - prx) * 8 : Int) : Rat) / (e * 1000000),
         (((tx - ptx) * 8 : Int) : Rat) / (e * 1000000))) ∧
    (∀ (m : PrevStats) (e : Rat) (name : String) (d : IfaceData) (prx ptx : Int),
      retained name d = true → lookupStat m name = some (prx, ptx) → 0 < e →
      prx ≤ d.rx_bytes → ptx ≤ d.tx_bytes →
      (processIfaces e [(name, d)] m).1.map (fun i => (i.rxRate, i.txRate)) =
        [(pyRound ((((d.rx_bytes - prx) * 8 : Int) : Rat) / (e * 1000000)) 2,
          pyRound ((((d.tx_bytes - ptx) * 8 : Int) : Rat) / (e * 1000000)) 2)] ∧
      lookupStat (processIfaces e [(name, d)] m).2 name = some (d.rx_bytes, d.tx_bytes)) ∧
    ((get_network_status true "k" "fortigate" (c3Forti 1000 500) ⟨[], none⟩ 0).1.interfaces.map
       (fun i => (i.rxRate, i.txRate)) = [(0, 0)] ∧
     c3State1 = ⟨[("wan1", (1000, 500))], some 0⟩) ∧
    c3Second.interfaces.map (fun i => (i.rxRate, i.txRate)) = [(2.6, 1)] := by
  refine ⟨fun e rx tx => rfl, fun t now => rfl, ?_, ?_, ⟨?_, c3_state1_eval⟩, ?_⟩
  · intro prx ptx rx tx e he h1 h2
    exact ifaceRates_pos prx ptx rx tx e he h1 h2
  · intro m e name d prx ptx hret hlook he h1 h2
    rw [processIfaces_single m e name d hret]
    constructor
    · simp only [List.map_cons, List.map_nil]
      rw [hlook, ifaceRates_pos prx ptx d.rx_bytes d.tx_bytes e he h1 h2]
    · simp [lookupStat, List.lookup]
  · rw [c3_first_poll]
    rfl
  · rw [c3_second_eval]
    rfl

/-- C3 witness: the theorem's subsequent-observation rule instantiated at
the spec scenario's second observation. -/
theorem c3_witness :
    ((0 : Rat) < 5 ∧ (1000 : Int) ≤ 1625000 ∧ (500 : Int) ≤ 625000) ∧
    ifaceRates (some (1000, 500)) 5 1625000 625000 =
      ((((1625000 - 1000) * 8 : Int) : Rat) / (5 * 1000000),
       (((625000 - 500) * 8 : Int) : Rat) / (5 * 1000000)) :=
  ⟨⟨by norm_num, by decide, by decide⟩,
   c3_rate_tracker.2.2.1 1000 500 1625000 625000 5 (by norm_num) (by decide) (by decide)⟩

lemma pyRound_zero (n : Nat) : pyRound 0 n = 0 := by
  norm_num [pyRound, roundHalfEven, Rat.floor]

/-- C4: with a stored previous sample, a counter that moved backwards
(reset or wraparound) yields rate 0 for that direction only, the other
direction is computed normally, and the stored sample is still
overwritten with the new (lower) counter values. -/
theorem c4_counter_reset :
    ∀ (m : PrevStats) (e : Rat) (name : String) (d : IfaceData) (prx ptx : Int),
      retained name d = true → lookupStat m name = some (prx, ptx) → 0 < e →
      ((d.rx_bytes < prx → ptx ≤ d.tx_bytes →
        (processIfaces e [(name, d)] m).1.map (fun i => (i.rxRate, i.txRate)) =
          [(0, pyRound ((((d.tx_bytes - ptx) * 8 : Int) : Rat) / (e * 1000000)) 2)]) ∧
       (d.tx_bytes < ptx → prx ≤ d.rx_bytes →
        (processIfaces e [(name, d)] m).1.map (fun i => (i.rxRate, i.txRate)) =
          [(pyRound ((((d.rx_bytes - prx) * 8 : Int) : Rat) / (e * 1000000)) 2, 0)]) ∧
       lookupStat (processIfaces e [(name, d)] m).2 name = some (d.rx_bytes, d.tx_bytes)) := by
  intro m e name d prx ptx hret hlook he
  refine ⟨?_, ?_, ?_⟩
  · intro h1 h2
    rw [processIfaces_single m e name d hret]
    simp only [List.map_cons, List.map_nil]
    rw [hlook, ifaceRates_reset_rx prx ptx d.rx_bytes d.tx_bytes e he h1 h2, pyRound_zero]
  · intro h1 h2
    rw [processIfaces_single m e name d hret]
    simp only [List.map_cons, List.map_nil]
    rw [hlook, ifaceRates_reset_tx prx ptx d.rx_bytes d.tx_bytes e he h2 h1, pyRound_zero]
  · rw [processIfaces_single m e name d hret]
    simp [lookupStat, List.lookup]

/-- C4 witness: the rx counter dropped from 1000 to 900 while tx advanced
by 625_000 bytes over 5 s: rx rate 0, tx rate 1.00 Mbps, both counters
overwritten. -/
theorem c4_witness :
    (retained "wan1" c4d = true ∧ lookupStat c4m "wan1" = some (1000, 500) ∧ (0 : Rat) < 5 ∧
     c4d.rx_bytes < 1000 ∧ (500 : Int) ≤ c4d.tx_bytes) ∧
    (processIfaces 5 [("wan1", c4d)] c4m).1.map (fun i => (i.rxRate, i.txRate)) = [(0, 1)] ∧
    lookupStat (processIfaces 5 [("wan1", c4d)] c4m).2 "wan1" = some (900, 625500) := by
  have h := c4_counter_reset c4m 5 "wan1" c4d 1000 500 (by decide) (by decide) (by norm_num)
  refine ⟨⟨by decide, by decide, by norm_num, by decide, by decide⟩, ?_, ?_⟩
  · exact (h.1 (by decide) (by decide)).trans
      (by norm_num [c4d, pyRound, roundHalfEven, Rat.floor])
  · exact h.2.2

/-- C5: the health field follows exactly: NotReady → "error" regardless
of metrics; no data on either health metric → "unknown"; cpu ≥ 80 or
ram ≥ 85 → "warning"; else "healthy" — with the spec's four concrete
examples checked end to end through `get_node_metrics`. -/
theorem c5_node_health :
    (∀ (cpu ram : Option Rat), node_health "NotReady" cpu ram = "error") ∧
    (∀ (status : String), status ≠ "NotReady" → node_health status none none = "unknown") ∧
    (∀ (status : String) (cpu ram : Option Rat) (c : Rat), status ≠ "NotReady" →
      cpu = some c → 80 ≤ c → node_health status cpu ram = "warning") ∧
    (∀ (status : String) (cpu ram : Option Rat) (r : Rat), status ≠ "NotReady" →
      ram = some r → 85 ≤ r → node_health status cpu ram = "warning") ∧
    (∀ (status : String) (cpu ram : Option Rat), status ≠ "NotReady" →
      (cpu.isSome = true ∨ ram.isSome = true) →
      (∀ c, cpu = some c → c < 80) → (∀ r, ram = some r → r < 85) →
      node_health status cpu ram = "healthy") ∧
    ((get_node_metrics true true true true (.ok [⟨"n1", [("Ready", "True")]⟩])
        [(⟨"n1", "10.0.0.1:9100"⟩, ⟨some 85, some 40, some 10⟩)]).map
        (fun n => (n.status, n.health)) = [("Ready", "warning")] ∧
     (get_node_metrics true true true true (.ok [⟨"n1", [("Ready", "True")]⟩])
        [(⟨"n1", "10.0.0.1:9100"⟩, ⟨none, none, none⟩)]).map
        (fun n => (n.status, n.health)) = [("Ready", "unknown")] ∧
     (get_node_metrics true true true true (.ok [⟨"n1", [("Ready", "False")]⟩])
        [(⟨"n1", "10.0.0.1:9100"⟩, ⟨some 10, some 10, some 10⟩)]).map
        (fun n => (n.status, n.health)) = [("NotReady", "error")] ∧
     (get_node_metrics true true true true (.ok [⟨"n1", [("Ready", "True")]⟩])
        [(⟨"n1", "10.0.0.1:9100"⟩, ⟨some 10, some 10, some 10⟩)]).map
        (fun n => (n.status, n.health)) = [("Ready", "healthy")]) := by
  refine ⟨?_, ?_, ?_, ?_, ?_, by decide, by decide, by decide, by decide⟩
  · intro cpu ram
    rfl
  · intro status h
    simp [node_health, beq_eq_false_iff_ne.mpr h]
  · intro status cpu ram c h hc hge
    subst hc
    simp [node_health, beq_eq_false_iff_ne.mpr h, Option.any, hge]
  · intro status cpu ram r h hr hge
    subst hr
    simp [node_health, beq_eq_false_iff_ne.mpr h, Option.any, hge]
  · intro status cpu ram h hsome h3 h4
    have hb : (status == "NotReady") = false := beq_eq_false_iff_ne.mpr h
    cases cpu with
    | none =>
      cases ram with
      | none => simp at hsome
      | some r => simp [node_health, hb, Option.any, not_le.mpr (h4 r rfl)]
    | some c =>
      cases ram with
      | none => simp [node_health, hb, Option.any, not_le.mpr (h3 c rfl)]
      | some r =>
        simp [node_health, hb, Option.any, not_le.mpr (h3 c rfl), not_le.mpr (h4 r rfl)]

/-- C5 witness: (cpu=85, ram=40, Ready) classified "warning" by the
theorem's cpu-threshold rule. -/
theorem c5_witness :
    (("Ready" : String) ≠ "NotReady" ∧ (80 : Rat) ≤ 85) ∧
    node_health "Ready" (some 85) (some 40) = "warning" :=
  ⟨⟨by decide, by decide⟩,
   c5_node_health.2.2.1 "Ready" (some 85) (some 40) 85 (by decide) rfl (by decide)⟩

/-- C6: the service-health check classifies HTTP status < 400 (3xx
included, redirects not followed) as "up", status ≥ 400 as "degraded",
and a timeout or transport error as "down"; in particular 301 → "up" and
503 → "degraded". -/
theorem c6_service_classification :
    ∀ (sc : ServiceConfig) (s : Nat) (ms : Rat),
      (check_service sc (.response s ms)).status = (if s < 400 then "up" else "degraded") ∧
      (check_service sc .timeout).status = "down" ∧
      (check_service sc .failure).status = "down" ∧
      (check_service sc (.response 301 ms)).status = "up" ∧
      (check_service sc (.response 503 ms)).status = "degraded" := by
  intro sc s ms
  exact ⟨rfl, rfl, rfl, rfl, rfl⟩

/-- C7: the activity list is the 10 most recent events sorted by
descending timestamp; each message longer than 80 characters becomes its
first 77 characters plus a 3-character ellipsis (80 total), shorter
messages are unchanged. -/
theorem c7_activity :
    ∀ (evs : List K8sEvent) (now : Int) (m : String) (e : K8sEvent),
      (get_recent_activity true true (.ok evs) now).length ≤ 10 ∧
      get_recent_activity true true (.ok evs) now =
        ((sortByTimeDesc evs).take 10).map (formatEvent now) ∧
      ((sortByTimeDesc evs).take 10).Pairwise keyGe ∧
      (formatEvent now e).message = truncMsg e.message ∧
      (80 < m.length → truncMsg m = String.mk (m.data.take 77) ++ "..." ∧
        (truncMsg m).length = 80) ∧
      (m.length ≤ 80 → truncMsg m = m) ∧
      ("..." : String).length = 3 := by
  intro evs now m e
  refine ⟨?_, rfl, ?_, rfl, ?_, ?_, rfl⟩
  · show (((sortByTimeDesc evs).take 10).map (formatEvent now)).length ≤ 10
    rw [List.length_map, List.length_take]
    exact min_le_left _ _
  · exact List.Pairwise.sublist (List.take_sublist 10 _) (pairwise_sortByTimeDesc evs)
  · intro h
    have hd : 80 < m.data.length := h
    refine ⟨by rw [truncMsg, if_pos h], ?_⟩
    rw [truncMsg, if_pos h, String.length_append]
    have h77 : (String.mk (m.data.take 77)).length = 77 := by
      show (m.data.take 77).length = 77
      rw [List.length_take]
      omega
    rw [h77]
    rfl
  · intro h
    rw [truncMsg, if_neg (not_lt.mpr h)]

/-- C7 witness: a 120-character message truncates to 77 characters plus
the ellipsis, 80 characters total. -/
theorem c7_witness :
    80 < c7msg.length ∧
    truncMsg c7msg = String.mk (c7msg.data.take 77) ++ "..." ∧
    (truncMsg c7msg).length = 80 :=
  ⟨by decide, ((c7_activity [] 0 c7msg c7event).2.2.2.2.1 (by decide)).1,
   ((c7_activity [] 0 c7msg c7event).2.2.2.2.1 (by decide)).2⟩

/-- C8: broadcast attempts one send to every registered channel in
registration order; the channels whose send failed — and only those —
are removed from the registry by the end of the broadcast; a failure on
one channel never prevents the attempt on any other; and on a
duplicate-free registry every channel gets exactly one send attempt.
Totality of `broadcast` models "broadcast itself raises no exception". -/
theorem c8_broadcast :
    ∀ (conns : List Channel),
      (broadcast conns).2 = conns ∧
      (broadcast conns).1 = conns.filter (fun ch => !ch.sendFails) ∧
      (∀ ch, ch ∈ conns → ch.sendFails = true → ch ∉ (broadcast conns).1) ∧
      (∀ ch, ch ∈ conns → ch.sendFails = false → ch ∈ (broadcast conns).1) ∧
      (conns.Nodup → ∀ ch, ch ∈ conns → (broadcast conns).2.count ch = 1) := by
  intro conns
  have h2 : (broadcast conns).2 = conns := broadcastScan_snd conns
  have h1 : (broadcast conns).1 = conns.filter (fun ch => !ch.sendFails) := by
    show ((broadcastScan conns).1).foldl disconnect conns = _
    rw [broadcastScan_fst]
    exact foldl_disconnect_filter conns
  refine ⟨h2, h1, ?_, ?_, ?_⟩
  · intro ch hm hf
    rw [h1]
    intro hmem
    have hx := (List.mem_filter.mp hmem).2
    rw [hf] at hx
    exact Bool.noConfusion hx
  · intro ch hm hf
    rw [h1]
    exact List.mem_filter.mpr ⟨hm, by rw [hf]; rfl⟩
  · intro hnd ch hm
    rw [h2]
    exact List.count_eq_one_of_mem hnd hm

/-- C8 witness: of three registered channels the middle one's send
fails; it is removed, the others stay, and each was attempted once. -/
theorem c8_witness :
    (([⟨0, false⟩, ⟨1, true⟩, ⟨2, false⟩] : List Channel).Nodup ∧
     (⟨1, true⟩ : Channel) ∈ ([⟨0, false⟩, ⟨1, true⟩, ⟨2, false⟩] : List Channel) ∧
     (⟨2, false⟩ : Channel) ∈ ([⟨0, false⟩, ⟨1, true⟩, ⟨2, false⟩] : List Channel)) ∧
    (⟨1, true⟩ : Channel) ∉ (broadcast [⟨0, false⟩, ⟨1, true⟩, ⟨2, false⟩]).1 ∧
    (⟨2, false⟩ : Channel) ∈ (broadcast [⟨0, false⟩, ⟨1, true⟩, ⟨2, false⟩]).1 ∧
    (broadcast [⟨0, false⟩, ⟨1, true⟩, ⟨2, false⟩]).2.count ⟨1, true⟩ = 1 := by
  refine ⟨⟨by decide, by decide, by decide⟩, ?_, ?_, ?_⟩
  · exact (c8_broadcast _).2.2.1 _ (by decide) rfl
  · exact (c8_broadcast _).2.2.2.1 _ (by decide) rfl
  · exact (c8_broadcast _).2.2.2.2 (by decide) _ (by decide)

/-- C9 counterexample: on a registry holding the same channel twice,
deregistering twice removes both occurrences while deregistering once
removes only the first — so over arbitrary registry states `disconnect`
is not idempotent (Python's `list.remove` drops one occurrence). -/
theorem c9_counterexample :
    disconnect (disconnect [dupW, dupW] dupW) dupW ≠ disconnect [dupW, dupW] dupW ∧
    disconnect [dupW, dupW] dupW = [dupW] ∧
    disconnect (disconnect [dupW, dupW] dupW) dupW = [] := by
  exact ⟨by decide, by decide, by decide⟩

/-- C9 (amended): on duplicate-free registry states — the only states
reachable, since each accepted websocket is a fresh object registered
once — deregistration is idempotent; and deregistering a channel that is
not registered leaves any registry unchanged (and never raises: the
removal is membership-guarded and `disconnect` is total). -/
theorem c9_disconnect_idempotent :
    ∀ (conns : List Channel) (w : Channel),
      (conns.Nodup → disconnect (disconnect conns w) w = disconnect conns w) ∧
      (w ∉ conns → disconnect conns w = conns) := by
  intro conns w
  constructor
  · intro hnd
    by_cases hw : w ∈ conns
    · have h1 : disconnect conns w = conns.erase w := by
        rw [disconnect, if_pos hw]
      rw [h1, disconnect, if_neg (List.Nodup.not_mem_erase hnd)]
    · have h1 : disconnect conns w = conns := by
        rw [disconnect, if_neg hw]
      rw [h1, h1]
  · intro hw
    rw [disconnect, if_neg hw]

/-- C9 witness: idempotence on a two-element duplicate-free registry and
the no-op removal of an unregistered channel. -/
theorem c9_witness :
    (([⟨0, false⟩, ⟨1, true⟩] : List Channel).Nodup ∧
     (⟨5, false⟩ : Channel) ∉ ([⟨0, false⟩, ⟨1, true⟩] : List Channel)) ∧
    disconnect (disconnect [⟨0, false⟩, ⟨1, true⟩] ⟨0, false⟩) ⟨0, false⟩ =
      disconnect [⟨0, false⟩, ⟨1, true⟩] ⟨0, false⟩ ∧
    disconnect [⟨0, false⟩, ⟨1, true⟩] ⟨5, false⟩ = [⟨0, false⟩, ⟨1, true⟩] :=
  ⟨⟨by decide, by decide⟩,
   (c9_disconnect_idempotent [⟨0, false⟩, ⟨1, true⟩] ⟨0, false⟩).1 (by decide),
   (c9_disconnect_idempotent [⟨0, false⟩, ⟨1, true⟩] ⟨5, false⟩).2 (by decide)⟩

/-- C10: with zero configured services the status operation takes the
dedicated early return (services=[], healthScore=100.0, upCount=0,
totalCount=0) and no division happens; with at least one service the
denominator is the strictly positive service count and the health score
is round(100 * upCount / totalCount, 1). -/
theorem c10_health_score :
    ∀ (checks : List (ServiceConfig × CheckOutcome)),
      get_service_status [] = ⟨[], 100, 0, 0⟩ ∧
      (checks ≠ [] →
        (get_service_status checks).totalCount = checks.length ∧
        0 < (get_service_status checks).totalCount ∧
        (get_service_status checks).healthScore =
          pyRound ((100 * ((get_service_status checks).upCount : Rat)) /
            ((get_service_status checks).totalCount : Rat)) 1) := by
  intro checks
  refine ⟨rfl, ?_⟩
  intro hne
  have hie : checks.isEmpty = false := by
    cases checks
    · exact absurd rfl hne
    · rfl
  have hlen : 0 < checks.length := List.length_pos.mpr hne
  refine ⟨?_, ?_, ?_⟩
  · simp [get_service_status, hie]
  · simp only [get_service_status, hie, Bool.false_eq_true, if_false]
    exact hlen
  · simp only [get_service_status, hie, Bool.false_eq_true, if_false]
    rw [if_pos hlen]
    congr 1
    ring

/-- C10 witness: one configured service, so the denominator is the
positive count 1 and the score is the rounded ratio. -/
theorem c10_witness :
    c10checks ≠ [] ∧
    (get_service_status c10checks).totalCount = c10checks.length ∧
    0 < (get_service_status c10checks).totalCount ∧
    (get_service_status c10checks).healthScore =
      pyRound ((100 * ((get_service_status c10checks).upCount : Rat)) /
        ((get_service_status c10checks).totalCount : Rat)) 1 :=
  ⟨by decide, ((c10_health_score c10checks).2 (by decide)).1,
   ((c10_health_score c10checks).2 (by decide)).2.1,
   ((c10_health_score c10checks).2 (by decide)).2.2⟩
